import Mathlib

/-!
Shallow embedding of the RFC 8941 structured-field codec of go-fetch
(`src/internal/rfc8941/textserialize.go` for serialization and the
parsing half of `src/unnamed/part_000` for parsing), together with the
character classes of `rfc5234/corerules.go` and the `TChar` class of
the vendored rfc7230 package.

Modelling conventions:
* A Go string cursor (`inputString *string`) becomes a `List Char`
  argument; every parser returns the remaining cursor alongside its
  result.  `TextParse` checks that the input is ASCII before any parser
  runs, so byte indexing and rune iteration agree on every string a
  parser ever sees.
* Indexing an empty string (`(*inputString)[0]`) panics in Go; the
  result type `PRes` has a dedicated `panic` constructor for it, kept
  separate from the ordinary `err` outcome (`fmt.Errorf(...)`).
* Errors propagate together with the mutated cursor, exactly as the
  shared `*string` survives an error return in Go.
* Loops carry an explicit fuel argument.  Every loop of the source
  consumes at least one character per iteration, so a fuel of
  `input.length + 1` (what `textParse` passes) can never run out; the
  `oof` constructor exists only to make the recursion structural.
* Go `int64` becomes `Int` (the source's range checks keep every value
  the code accepts inside the int64 range, and `math.Abs` via `float64`
  is exact below `2^53`, which covers the accepted range).
* Go `float64` decimals become exact scaled decimals: a pair of an
  integer mantissa `m` and a scale `s` denoting `m / 10 ^ s`, kept
  normalized (no factor of 10 left in `m` while `s > 0`), so that two
  pairs are equal exactly when they denote the same decimal value.
  Decimal literals accepted by the parser have at most 15 significant
  digits and distinct such values denote distinct binary64 values, so
  this exact representation is a faithful abstraction for the
  success/failure and equality facts proved below; behaviour that
  hinges on binary64 representation error is reported as such, not
  proved.
* `Token` is a type alias of `string` in the source, so token values
  are `vStr` values here, exactly as a Go type switch cannot tell them
  apart.
-/

namespace Rfc8941

/-- DQUOTE, 0x22. -/
def chDQ : Char := Char.ofNat 34

/-- Backslash, 0x5c. -/
def chBS : Char := Char.ofNat 92

/-- Horizontal tab, 0x09. -/
def chTab : Char := Char.ofNat 9

/-- rfc5234 ALPHA: `^[A-Za-z]$`. -/
def isALPHA (c : Char) : Bool := ('A' ≤ c && c ≤ 'Z') || ('a' ≤ c && c ≤ 'z')

/-- rfc5234 DIGIT: `^\d$` (ASCII digits). -/
def isDIGIT (c : Char) : Bool := '0' ≤ c && c ≤ '9'

/-- Lowercase ASCII letter (the `a-z` part of the parser's key/token regexps). -/
def isLcAlpha (c : Char) : Bool := 'a' ≤ c && c ≤ 'z'

/-- rfc7230 TChar: any of `!#$%&'*+-.^_`|~`, a digit, or a letter
(the 0x27 apostrophe and the 0x60 grave accent are written by code). -/
def isTChar (c : Char) : Bool :=
  isALPHA c || isDIGIT c ||
  (['!', '#', '$', '%', '&', '*', '+', '-', '.', '^', '_', '|', '~'].contains c) ||
  c == Char.ofNat 39 || c == Char.ofNat 96

/-- `utf8string.NewString(s).IsASCII()`: every rune below 0x80. -/
def allAscii (s : List Char) : Bool := s.all (fun c => c.toNat < 128)

/-- `strings.TrimLeft(s, " ")`. -/
def trimSP (s : List Char) : List Char := s.dropWhile (fun c => c == ' ')

/-- `strings.TrimLeft(s, " \t")` (OWS). -/
def trimOWS (s : List Char) : List Char := s.dropWhile (fun c => c == ' ' || c == chTab)

/-- Numeric value of a digit string (used for `strconv.ParseInt`, which
cannot fail here: the parser only hands it nonempty all-digit strings of
at most 15 characters, well inside int64). -/
def digitsToNat (ds : List Char) : Nat := ds.foldl (fun a c => a * 10 + (c.toNat - 48)) 0

/-- A bare item as the Go code stores it in an `any` slot.  `vStr` covers
both Strings and Tokens: `type Token = string` is a type alias in the
source, so the two are indistinguishable to every type assertion.
`vDec m s` is the exact scaled-decimal model of a `float64` decimal with
value `m / 10 ^ s`; every producer below keeps the pair normalized (no
factor of 10 in `m` while `s > 0`), which makes pair equality coincide
with value equality.  `vNil` is the nil interface value (the zero value
the code produces when it discards an error). -/
inductive BareItem where
  | vInt (n : Int)
  | vDec (m : Int) (s : Nat)
  | vStr (s : List Char)
  | vBytes (b : List Nat)
  | vBool (b : Bool)
  | vNil
deriving DecidableEq

/-- A key (Go `type Key = string`). -/
abbrev Key := List Char

/-- Ordered parameters: `[]tuple.T2[string, BareItem]`. -/
abbrev Parameters := List (Key × BareItem)

/-- A list/dictionary member value (`ItemOrInnerList = any` in the source):
either a bare item or an inner list of (bare item, parameters) pairs. -/
inductive MemberVal where
  | bare (b : BareItem)
  | inner (l : List (BareItem × Parameters))
deriving DecidableEq

/-- The contents of the Go `map[string]tuple.T2[ItemOrInnerList, Parameters]`
built by `ParseDictionary`.  Go's built-in map does not preserve insertion
order (its iteration order is unspecified); this association list records
only the key/value contents, and `goMapSet` mirrors `dictionary[key] = member`:
overwrite the existing slot if the key is present, otherwise add the entry. -/
abbrev GoDict := List (Key × (MemberVal × Parameters))

/-- `dictionary[thisKey] = member` on the map contents. -/
def goMapSet : GoDict → Key → (MemberVal × Parameters) → GoDict
  | [], k, v => [(k, v)]
  | e :: rest, k, v => if e.1 == k then (k, v) :: rest else e :: goMapSet rest k v

/-- Map lookup on the contents. -/
def goMapLookup : GoDict → Key → Option (MemberVal × Parameters)
  | [], _ => none
  | e :: rest, k => if e.1 == k then some e.2 else goMapLookup rest k

/-- Outcome of a sub-parser: success with a value and the remaining cursor,
a parse error (the cursor it left behind is kept, since the Go code mutates
the shared string in place even on failure), a Go runtime panic
(out-of-range string index), or fuel exhaustion (never reached for the fuel
`textParse` passes; it only makes the loop recursions structural). -/
inductive PRes (α : Type) where
  | ok (a : α) (rest : List Char)
  | err (rest : List Char)
  | panic
  | oof
deriving DecidableEq

/-- A parsed structured field value, as `TextParse` returns it. -/
inductive PValue where
  | listV (l : List (MemberVal × Parameters))
  | dictV (d : GoDict)
  | itemV (i : BareItem × Parameters)
deriving DecidableEq

/-- Outcome of `TextParse`. -/
inductive POut where
  | ok (v : PValue)
  | err
  | panic
  | oof
deriving DecidableEq

/-- Outcome of a serializer: the produced ASCII string, a serialization
error, or a Go runtime panic. -/
inductive SRes where
  | ok (s : List Char)
  | err
  | panic
deriving DecidableEq

/-- Outcome of `TextSerialize`: `absent` is the `(nil, nil)` return for an
empty top-level list/dictionary ("omit the field"). -/
inductive SerOut where
  | absent
  | bytes (s : List Char)
  | err
  | panic
deriving DecidableEq

/-- The run-time shape handed to `TextSerialize` (its parameter is `any`).
`otherVal` stands for any value matching none of the three structures. -/
inductive SFValue where
  | list (l : List (MemberVal × Parameters))
  | dict (d : GoDict)
  | item (mv : MemberVal) (ps : Parameters)
  | otherVal
deriving DecidableEq

/-! ### Parsing (part_000, §4.2 of RFC 8941) -/

/-- The accumulation loop of `ParseNumber` (step 7).  Returns the final
(type-is-decimal, accumulated digits) pair plus the remaining cursor.
The `.` branch tests only `char == '.'`, not the accumulator type: that
matches the source, whose comment mentions the type but whose code does
not check it. -/
def parseNumberLoop : Bool → List Char → List Char → PRes (Bool × List Char)
  | isDec, num, [] => .ok (isDec, num) []
  | isDec, num, c :: rest =>
    if isDIGIT c then
      let num2 := num ++ [c]
      if !isDec && num2.length > 15 then .err rest
      else if isDec && num2.length > 16 then .err rest
      else parseNumberLoop isDec num2 rest
    else if c == '.' then
      if num.length > 12 then .err rest
      else
        let num2 := num ++ [c]
        if num2.length > 16 then .err rest
        else parseNumberLoop true num2 rest
    else .ok (isDec, num) (c :: rest)

/-- Normalize a scaled decimal `m / 10 ^ s`: strip factors of 10 from the
mantissa while the scale is positive.  Normalized pairs are unique per
decimal value, so equality of normalized pairs is value equality. -/
def decNorm : Int → Nat → Int × Nat
  | m, 0 => (m, 0)
  | m, Nat.succ s => if m % 10 == 0 then decNorm (m / 10) s else (m, Nat.succ s)

/-- Exact scaled-decimal model of `strconv.ParseFloat(inputNumber, 64)`.
`none` models the strconv error (reachable here only when the
accumulator holds a second dot, e.g. from input `1..2`).  Go rounds the
decimal literal to the nearest binary64; since the literals that reach
this call have at most 15 significant digits, distinct decimal values
denote distinct doubles and the exact representation is a faithful
abstraction. -/
def goParseFloat (num : List Char) : Option (Int × Nat) :=
  let ip := num.takeWhile (fun c => c != '.')
  let rest := num.dropWhile (fun c => c != '.')
  match rest with
  | [] => some ((digitsToNat ip : Int), 0)
  | _ :: frac =>
    if frac.any (fun c => c == '.') then none
    else
      some (decNorm ((digitsToNat ip : Int) * 10 ^ frac.length + (digitsToNat frac : Int))
        frac.length)

/-- `ParseNumber` (4.2.4).  Note the fractional-digit check of step 9.2 is
`len(inputNumber) - strings.Index(inputNumber, ".") > 3`, which counts the
dot itself, exactly as in the source. -/
def parseNumber : List Char → PRes BareItem
  | [] => .panic
  | c :: rest0 =>
    let sign : Int := if c == '-' then -1 else 1
    let s1 := if c == '-' then rest0 else c :: rest0
    match s1 with
    | [] => .err []
    | d :: _ =>
      if !isDIGIT d then .err s1
      else
        match parseNumberLoop false [] s1 with
        | .ok (isDec, num) rest =>
          if !isDec then .ok (.vInt (sign * (digitsToNat num : Int))) rest
          else
            match num.getLast? with
            | none => .panic
            | some lc =>
              if lc == '.' then .err rest
              else if num.length - num.findIdx (fun x => x == '.') > 3 then .err rest
              else
                match goParseFloat num with
                | none => .err rest
                | some p => .ok (.vDec (sign * p.1) p.2) rest
        | .err r => .err r
        | .panic => .panic
        | .oof => .oof

/-- The character loop of `ParseString` (4.2.5, step 4). -/
def parseStringLoop (acc : List Char) : List Char → PRes BareItem
  | [] => .err []
  | c :: rest =>
    if c == chBS then
      match rest with
      | [] => .err []
      | n :: rest2 =>
        if n == chDQ || n == chBS then parseStringLoop (acc ++ [n]) rest2
        else .err rest2
    else if c == chDQ then .ok (.vStr acc) rest
    else if c.toNat ≤ 31 || (127 ≤ c.toNat && c.toNat ≤ 255) then .err rest
    else parseStringLoop (acc ++ [c]) rest

/-- `ParseString` (4.2.5). -/
def parseString : List Char → PRes BareItem
  | [] => .panic
  | c :: rest => if c != chDQ then .err (c :: rest) else parseStringLoop [] rest

/-- The character loop of `ParseToken` (4.2.6, step 3). -/
def parseTokenLoop (acc : List Char) : List Char → PRes BareItem
  | [] => .ok (.vStr acc) []
  | c :: rest =>
    if isTChar c || c == ':' || c == '/' then parseTokenLoop (acc ++ [c]) rest
    else .ok (.vStr acc) (c :: rest)

/-- `ParseToken` (4.2.6).  The result is a Go `Token`, an alias of
`string`, hence `vStr`. -/
def parseToken (s : List Char) : PRes BareItem :=
  match s with
  | [] => .err []
  | c :: _ => if isALPHA c || c == '*' then parseTokenLoop [] s else .err s

/-- Continuation class of `ParseKey`: the source regexp `^[a-z0-9_\-.]`.
It omits the `*` that RFC 8941's key grammar (and `SerKey`) allow in
later positions. -/
def isKeyTail (c : Char) : Bool :=
  isLcAlpha c || isDIGIT c || c == '_' || c == '-' || c == '.'

/-- The character loop of `ParseKey` (4.2.3.3, step 3). -/
def parseKeyLoop (acc : List Char) : List Char → (List Char × List Char)
  | [] => (acc, [])
  | c :: rest => if isKeyTail c then parseKeyLoop (acc ++ [c]) rest else (acc, c :: rest)

/-- `ParseKey` (4.2.3.3). -/
def parseKey (s : List Char) : PRes Key :=
  match s with
  | [] => .err []
  | c :: _ =>
    if isLcAlpha c || c == '*' then
      let p := parseKeyLoop [] s
      .ok p.1 p.2
    else .err s

/-- Character admitted by the `[^A-Za-z0-9+/=]` screen of `ParseBinary`. -/
def isB64OrPad (c : Char) : Bool :=
  isALPHA c || isDIGIT c || c == '+' || c == '/' || c == '='

/-- Six-bit value of a standard-base64 alphabet character. -/
def b64Val (c : Char) : Option Nat :=
  if 'A' ≤ c && c ≤ 'Z' then some (c.toNat - 65)
  else if 'a' ≤ c && c ≤ 'z' then some (c.toNat - 97 + 26)
  else if '0' ≤ c && c ≤ '9' then some (c.toNat - 48 + 52)
  else if c == '+' then some 62
  else if c == '/' then some 63
  else none

/-- Standard-base64 alphabet character for a six-bit value. -/
def b64Chr (n : Nat) : Char :=
  if n < 26 then Char.ofNat (65 + n)
  else if n < 52 then Char.ofNat (97 + n - 26)
  else if n < 62 then Char.ofNat (48 + n - 52)
  else if n == 62 then '+'
  else '/'

/-- Model of `base64.StdEncoding.DecodeString`: four-character quanta,
padding `=` required and only in the final quantum, characters outside the
alphabet rejected; non-zero trailing pad bits are accepted (the default,
non-Strict encoding). -/
def b64DecodeLoop : List Char → Option (List Nat)
  | [] => some []
  | c1 :: c2 :: c3 :: c4 :: rest =>
    match b64Val c1, b64Val c2 with
    | some v1, some v2 =>
      if c3 == '=' then
        if c4 == '=' && rest == [] then some [v1 * 4 + v2 / 16]
        else none
      else
        match b64Val c3 with
        | some v3 =>
          if c4 == '=' then
            if rest == [] then some [v1 * 4 + v2 / 16, (v2 % 16) * 16 + v3 / 4]
            else none
          else
            match b64Val c4 with
            | some v4 =>
              match b64DecodeLoop rest with
              | some bs => some ([v1 * 4 + v2 / 16, (v2 % 16) * 16 + v3 / 4, (v3 % 4) * 64 + v4] ++ bs)
              | none => none
            | none => none
        | none => none
    | _, _ => none
  | _ => none

/-- `ParseBinary` (4.2.7). -/
def parseBinary : List Char → PRes BareItem
  | [] => .panic
  | c :: rest =>
    if c != ':' then .err (c :: rest)
    else if !(rest.any (fun x => x == ':')) then .err rest
    else
      let b64 := rest.takeWhile (fun x => x != ':')
      let s2 := rest.dropWhile (fun x => x != ':')
      let s3 := s2.tail
      if b64.any (fun x => !(isB64OrPad x)) then .err s3
      else
        match b64DecodeLoop b64 with
        | none => .err s3
        | some bs => .ok (.vBytes bs) s3

/-- `ParseBoolean` (4.2.8).  After the `?` is consumed the code indexes
the first character of the remainder without an emptiness check, so the
input consisting of `?` alone panics. -/
def parseBoolean : List Char → PRes BareItem
  | [] => .panic
  | c :: rest =>
    if c != '?' then .err (c :: rest)
    else
      match rest with
      | [] => .panic
      | d :: rest2 =>
        if d == '1' then .ok (.vBool true) rest2
        else if d == '0' then .ok (.vBool false) rest2
        else .err (d :: rest2)

/-- `ParseBareItem` (4.2.3.1).  The token dispatch uses the source regexp
`^[a-z*]`, which matches lowercase letters and `*` only — uppercase ALPHA
falls through to the final unrecognized-item-type failure.  On empty
input the first two regexps fail to match and the `"` comparison indexes
byte 0, a panic. -/
def parseBareItem : List Char → PRes BareItem
  | [] => .panic
  | c :: rest =>
    let s := c :: rest
    if c == '-' || isDIGIT c then parseNumber s
    else if c == chDQ then parseString s
    else if isLcAlpha c || c == '*' then parseToken s
    else if c == ':' then parseBinary s
    else if c == '?' then parseBoolean s
    else .err s

/-- Step 7/8 of `ParseParam`: replace the first slot holding the key, or
append. -/
def paramUpsert : Parameters → Key → BareItem → Parameters
  | [], k, v => [(k, v)]
  | p :: rest, k, v => if p.1 == k then (k, v) :: rest else p :: paramUpsert rest k v

/-- The loop of `ParseParam` (4.2.3.2).  Two source peculiarities are kept:
after a key is parsed the code indexes the first remaining character with
no emptiness check (a panic when the input ends right after the key), and
the error returned by `ParseBareItem` for a parameter value is assigned
but never checked, so a failed value silently becomes the nil zero value. -/
def parseParamLoop : Nat → Parameters → List Char → PRes Parameters
  | 0, _, _ => .oof
  | Nat.succ fuel, acc, s =>
    match s with
    | [] => .ok acc []
    | c :: rest =>
      if c != ';' then .ok acc (c :: rest)
      else
        let s1 := trimSP rest
        match parseKey s1 with
        | .err r => .err r
        | .panic => .panic
        | .oof => .oof
        | .ok k r1 =>
          match r1 with
          | [] => .panic
          | d :: r2 =>
            if d == '=' then
              match parseBareItem r2 with
              | .ok v r3 => parseParamLoop fuel (paramUpsert acc k v) r3
              | .err r3 => parseParamLoop fuel (paramUpsert acc k .vNil) r3
              | .panic => .panic
              | .oof => .oof
            else parseParamLoop fuel (paramUpsert acc k (.vBool true)) (d :: r2)

/-- `ParseParam` (4.2.3.2). -/
def parseParam (fuel : Nat) (s : List Char) : PRes Parameters := parseParamLoop fuel [] s

/-- `ParseItem` (4.2.3). -/
def parseItem (fuel : Nat) (s : List Char) : PRes (BareItem × Parameters) :=
  match parseBareItem s with
  | .err r => .err r
  | .panic => .panic
  | .oof => .oof
  | .ok b r1 =>
    match parseParam fuel r1 with
    | .err r2 => .err r2
    | .panic => .panic
    | .oof => .oof
    | .ok ps r2 => .ok (b, ps) r2

/-- The loop of `ParseInnerList` (4.2.1.2, step 3).  The source reads
`item, _ := ParseItem(inputString)`: the error is discarded and the zero
value `(nil, nil)` — here `(.vNil, [])` — is appended in its place, while
the cursor keeps whatever `ParseItem` left behind.  The separator check
indexes the first remaining character without an emptiness test. -/
def parseInnerListLoop :
    Nat → List (BareItem × Parameters) → List Char → PRes (List (BareItem × Parameters) × Parameters)
  | 0, _, _ => .oof
  | Nat.succ fuel, acc, s =>
    match s with
    | [] => .err []
    | _ :: _ =>
      let t := trimSP s
      match t with
      | [] => .panic
      | c :: r =>
        if c == ')' then
          match parseParam (Nat.succ fuel) r with
          | .ok ps r2 => .ok (acc, ps) r2
          | .err r2 => .err r2
          | .panic => .panic
          | .oof => .oof
        else
          match parseItem (Nat.succ fuel) t with
          | .panic => .panic
          | .oof => .oof
          | .ok it r2 =>
            match r2 with
            | [] => .panic
            | c2 :: _ =>
              if c2 != ' ' && c2 != ')' then .err r2
              else parseInnerListLoop fuel (acc ++ [it]) r2
          | .err r2 =>
            match r2 with
            | [] => .panic
            | c2 :: _ =>
              if c2 != ' ' && c2 != ')' then .err r2
              else parseInnerListLoop fuel (acc ++ [(.vNil, ([] : Parameters))]) r2

/-- `ParseInnerList` (4.2.1.2). -/
def parseInnerList (fuel : Nat) (s : List Char) :
    PRes (List (BareItem × Parameters) × Parameters) :=
  match s with
  | [] => .panic
  | c :: rest => if c != '(' then .err rest else parseInnerListLoop fuel [] rest

/-- `ParseItemOrList` (4.2.1.1). -/
def parseItemOrList (fuel : Nat) (s : List Char) : PRes (MemberVal × Parameters) :=
  match s with
  | [] => .panic
  | c :: _ =>
    if c == '(' then
      match parseInnerList fuel s with
      | .ok p r => .ok (.inner p.1, p.2) r
      | .err r => .err r
      | .panic => .panic
      | .oof => .oof
    else
      match parseItem fuel s with
      | .ok p r => .ok (.bare p.1, p.2) r
      | .err r => .err r
      | .panic => .panic
      | .oof => .oof

/-- The loop of `ParseList` (4.2.1, step 2). -/
def parseListLoop :
    Nat → List (MemberVal × Parameters) → List Char → PRes (List (MemberVal × Parameters))
  | 0, _, _ => .oof
  | Nat.succ fuel, acc, s =>
    match s with
    | [] => .ok acc []
    | _ :: _ =>
      match parseItemOrList (Nat.succ fuel) s with
      | .err r => .err r
      | .panic => .panic
      | .oof => .oof
      | .ok m r1 =>
        let t := trimOWS r1
        match t with
        | [] => .ok (acc ++ [m]) []
        | c :: r2 =>
          if c != ',' then .err r2
          else
            let t2 := trimOWS r2
            match t2 with
            | [] => .err []
            | _ :: _ => parseListLoop fuel (acc ++ [m]) t2

/-- `ParseList` (4.2.1). -/
def parseList (fuel : Nat) (s : List Char) : PRes (List (MemberVal × Parameters)) :=
  parseListLoop fuel [] s

/-- The loop of `ParseDictionary` (4.2.2, step 2).  After a key is parsed
the code indexes the first remaining character (`== '='`) without an
emptiness check — a panic when the input ends right after a key — and the
`=` branch hands a possibly empty remainder to `ParseItemOrList`, which
indexes it immediately, another panic. -/
def parseDictLoop : Nat → GoDict → List Char → PRes GoDict
  | 0, _, _ => .oof
  | Nat.succ fuel, acc, s =>
    match s with
    | [] => .ok acc []
    | _ :: _ =>
      match parseKey s with
      | .err r => .err r
      | .panic => .panic
      | .oof => .oof
      | .ok k r1 =>
        match r1 with
        | [] => .panic
        | d :: r2 =>
          let memberRes : PRes (MemberVal × Parameters) :=
            if d == '=' then parseItemOrList (Nat.succ fuel) r2
            else
              match parseParam (Nat.succ fuel) (d :: r2) with
              | .ok ps r3 => .ok (.bare (.vBool true), ps) r3
              | .err r3 => .err r3
              | .panic => .panic
              | .oof => .oof
          match memberRes with
          | .err r => .err r
          | .panic => .panic
          | .oof => .oof
          | .ok mem r3 =>
            let acc2 := goMapSet acc k mem
            let t := trimOWS r3
            match t with
            | [] => .ok acc2 []
            | c :: r4 =>
              if c != ',' then .err r4
              else
                let t2 := trimOWS r4
                match t2 with
                | [] => .err []
                | _ :: _ => parseDictLoop fuel acc2 t2

/-- `ParseDictionary` (4.2.2). -/
def parseDictionary (fuel : Nat) (s : List Char) : PRes GoDict :=
  parseDictLoop fuel [] s

/-- `TextParse` (4.2): ASCII check, leading-space trim, dispatch on the
field type (any tag other than the three known ones panics), trailing
trim and the all-input-consumed check. -/
def textParse (inputBytes : List Char) (fieldType : String) : POut :=
  if !(allAscii inputBytes) then .err
  else
    let s := trimSP inputBytes
    let fuel := inputBytes.length + 1
    let res : PRes PValue :=
      if fieldType == "list" then
        match parseList fuel s with
        | .ok l r => .ok (.listV l) r
        | .err r => .err r
        | .panic => .panic
        | .oof => .oof
      else if fieldType == "dictionary" then
        match parseDictionary fuel s with
        | .ok d r => .ok (.dictV d) r
        | .err r => .err r
        | .panic => .panic
        | .oof => .oof
      else if fieldType == "item" then
        match parseItem fuel s with
        | .ok i r => .ok (.itemV i) r
        | .err r => .err r
        | .panic => .panic
        | .oof => .oof
      else .panic
    match res with
    | .panic => .panic
    | .oof => .oof
    | .err _ => .err
    | .ok v r => if trimSP r != [] then .err else .ok v

/-- Extract the dictionary contents of a `textParse` outcome. -/
def dictOf : POut → Option GoDict
  | .ok (.dictV d) => some d
  | _ => none

/-! ### Serialization (textserialize.go, §4.1 of RFC 8941) -/

/-- `SerInteger` (4.1.4).  `int64(math.Abs(float64(value)))` is exact for
the accepted range (below `2^53`), hence `natAbs`. -/
def SerInteger (n : Int) : SRes :=
  if n < -999999999999999 || n > 999999999999999 then .err
  else .ok ((if n < 0 then ['-'] else []) ++ (toString n.natAbs).toList)

/-- `math.RoundToEven` on the exact quotient `a / b` (with `b > 0`):
nearest integer, ties to the even one, via Euclidean quotient and
remainder. -/
def intRoundToEven (a b : Int) : Int :=
  let f := a.ediv b
  let r := a.emod b
  if 2 * r < b then f
  else if 2 * r > b then f + 1
  else if f % 2 == 0 then f else f + 1

/-- Three-digit decimal rendering of `n < 1000` (zero padded). -/
def fracDigits3 (n : Nat) : List Char :=
  [Char.ofNat (48 + n / 100), Char.ofNat (48 + n / 10 % 10), Char.ofNat (48 + n % 10)]

/-- `strings.TrimRight(s, "0")`. -/
def trimRightZeros (s : List Char) : List Char :=
  (s.reverse.dropWhile (fun c => c == '0')).reverse

/-- Model of `strconv.FormatFloat(fractional, 'f', -1, 64)` for the values
that reach it in `SerDecimal`: `fractional = n/1000` with `0 < n < 1000`.
The `'f'` format prints a leading `0.` for every value below one, followed
by the shortest digit string that round-trips; for these values that is
the three digits of `n` without trailing zeros (decimal literals of at
most 15 significant digits round-trip uniquely through binary64). -/
def goFormatFloatFrac (n : Nat) : List Char := '0' :: '.' :: fracDigits3 n

/-- `SerDecimal` (4.1.5), on the exact scaled-decimal model of the input
`m / 10 ^ s`: round the value to thousandths with ties to even
(`math.RoundToEven(value*1000)`, here `intRoundToEven (m*1000) (10^s)`,
giving the rounded value `n / 1000`), range-check only the positive
bound as the source does (`value > 999999999999`, i.e.
`n > 999999999999 * 1000`), then emit sign, integer component, `.`, and
— when the fractional component is non-zero — the trailing-zero-trimmed
result of `strconv.FormatFloat` applied to the fractional component,
whose own `0.` prefix is appended verbatim, exactly as the source does. -/
def SerDecimal (m : Int) (s : Nat) : SRes :=
  let n := intRoundToEven (m * 1000) ((10 : Int) ^ s)
  if n > 999999999999 * 1000 then .err
  else
    let sign : List Char := if n < 0 then ['-'] else []
    let ipart : Nat := n.natAbs / 1000
    let fpart : Nat := n.natAbs % 1000
    let ipChars := if ipart == 0 then ['0'] else (toString ipart).toList
    let fpChars := if fpart == 0 then ['0'] else trimRightZeros (goFormatFloatFrac fpart)
    .ok (sign ++ ipChars ++ ['.'] ++ fpChars)

/-- The escape loop of `SerString` (4.1.6, step 4). -/
def serStringEsc : List Char → List Char
  | [] => []
  | c :: rest => (if c == chBS || c == chDQ then [chBS, c] else [c]) ++ serStringEsc rest

/-- `SerString` (4.1.6). -/
def SerString (s : List Char) : SRes :=
  if !(allAscii s) then .err
  else if s.any (fun c => c.toNat ≤ 31 || (127 ≤ c.toNat && c.toNat ≤ 255)) then .err
  else .ok (chDQ :: (serStringEsc s ++ [chDQ]))

/-- `SerToken` (4.1.7).  Dead code in practice: `Token` is an alias of
`string`, so `SerBareItem`'s string case fires first.  `value[:1]` on an
empty token panics. -/
def SerToken (s : List Char) : SRes :=
  if !(allAscii s) then .err
  else
    match s with
    | [] => .panic
    | c :: rest =>
      if !(isALPHA c || c == '*') then .err
      else if rest.any (fun x => !(isTChar x || x == ':' || x == '/')) then .err
      else .ok (c :: rest)

/-- Standard base64 encoding with padding (`base64.StdEncoding.EncodeToString`). -/
def b64EncodeLoop : List Nat → List Char
  | b1 :: b2 :: b3 :: rest =>
    b64Chr (b1 / 4) :: b64Chr ((b1 % 4) * 16 + b2 / 16) ::
      b64Chr ((b2 % 16) * 4 + b3 / 64) :: b64Chr (b3 % 64) :: b64EncodeLoop rest
  | [b1, b2] => [b64Chr (b1 / 4), b64Chr ((b1 % 4) * 16 + b2 / 16), b64Chr ((b2 % 16) * 4), '=']
  | [b1] => [b64Chr (b1 / 4), b64Chr ((b1 % 4) * 16), '=', '=']
  | [] => []

/-- `SerByteSequence` (4.1.8). -/
def SerByteSequence (bs : List Nat) : SRes :=
  .ok (':' :: (b64EncodeLoop bs ++ [':']))

/-- `SerBoolean` (4.1.9). -/
def SerBoolean (b : Bool) : SRes :=
  .ok ['?', if b then '1' else '0']

/-- `SerKey` (4.1.1.3).  Unlike `parseKey`, the character class here
admits `*` in every position.  `value[:1]` on an empty key panics. -/
def SerKey (k : Key) : SRes :=
  if !(allAscii k) then .err
  else if k.any (fun c => !(isLcAlpha c || isDIGIT c || c == '_' || c == '-' || c == '.' || c == '*')) then .err
  else
    match k with
    | [] => .panic
    | c :: _ => if !(isLcAlpha c || c == '*') then .err else .ok k

/-- `SerBareItem` (4.1.3.1).  The type switch runs int64, float64, string,
Token, `[]byte`, bool in order; the Token case is dead because `Token` is
a `string` alias, so the string case above it already matches every
token.  Nil and inner-list values match no case and fail. -/
def SerBareItem : MemberVal → SRes
  | .bare (.vInt n) => SerInteger n
  | .bare (.vDec m s) => SerDecimal m s
  | .bare (.vStr s) => SerString s
  | .bare (.vBytes bs) => SerByteSequence bs
  | .bare (.vBool b) => SerBoolean b
  | .bare .vNil => .err
  | .inner _ => .err

/-- The loop of `SerParams` (4.1.1.2, named `SerParams` in the source):
for each pair emit `;`, the key, and `=` plus the bare item unless the
value is boolean true. -/
def SerParamsLoop : Parameters → SRes
  | [] => .ok []
  | (k, v) :: rest =>
    match SerKey k with
    | .err => .err
    | .panic => .panic
    | .ok ks =>
      let valPart : SRes :=
        match v with
        | .vBool true => .ok []
        | _ =>
          match SerBareItem (.bare v) with
          | .ok vs => .ok ('=' :: vs)
          | .err => .err
          | .panic => .panic
      match valPart with
      | .err => .err
      | .panic => .panic
      | .ok vp =>
        match SerParamsLoop rest with
        | .ok tailS => .ok ((';' :: ks) ++ vp ++ tailS)
        | .err => .err
        | .panic => .panic

/-- `SerParams` (4.1.1.2). -/
def SerParams (ps : Parameters) : SRes := SerParamsLoop ps

/-- `SerItem` (4.1.3): bare item then parameters. -/
def SerItem (b : MemberVal) (ps : Parameters) : SRes :=
  match SerBareItem b with
  | .err => .err
  | .panic => .panic
  | .ok bs =>
    match SerParams ps with
    | .err => .err
    | .panic => .panic
    | .ok pss => .ok (bs ++ pss)

/-- The member loop of `SerInnerList` (4.1.1.1, step 2): items separated
by a single SP. -/
def SerInnerListLoop : List (BareItem × Parameters) → SRes
  | [] => .ok []
  | [(b, ps)] =>
    match SerItem (.bare b) ps with
    | .ok s => .ok s
    | .err => .err
    | .panic => .panic
  | (b, ps) :: rest =>
    match SerItem (.bare b) ps with
    | .ok s =>
      match SerInnerListLoop rest with
      | .ok t => .ok (s ++ (' ' :: t))
      | .err => .err
      | .panic => .panic
    | .err => .err
    | .panic => .panic

/-- `SerInnerList` (4.1.1.1). -/
def SerInnerList (il : List (BareItem × Parameters)) (ps : Parameters) : SRes :=
  match SerInnerListLoop il with
  | .err => .err
  | .panic => .panic
  | .ok body =>
    match SerParams ps with
    | .err => .err
    | .panic => .panic
    | .ok pss => .ok (('(' :: body) ++ [')'] ++ pss)

/-- The Go test `memberValue.([]any)` in `SerList`.  A type assertion to
`[]any` succeeds only when the dynamic type is exactly `[]any`; a
data-model member value has a bare-item type or the type `InnerList`
(`[]lo.Tuple2[...]`), never `[]any`, so the assertion always fails. -/
def goAssertAnySlice (_ : MemberVal) : Bool := false

/-- The member loop of `SerList` (4.1.1, step 2), exactly as written in
the source: the inner-list branch is guarded by `memberValue.([]any)`
(never true on data-model values; were it true, the body's
`memberValue.(InnerList)` single-value assertion would panic), and the
`", "` separator is appended only inside the item branch. -/
def SerListLoop : List (MemberVal × Parameters) → SRes
  | [] => .ok []
  | (mv, ps) :: rest =>
    if goAssertAnySlice mv then .panic
    else
      match SerItem mv ps with
      | .err => .err
      | .panic => .panic
      | .ok s =>
        let sep : List Char := if rest == [] then [] else [',', ' ']
        match SerListLoop rest with
        | .ok t => .ok (s ++ sep ++ t)
        | .err => .err
        | .panic => .panic

/-- `SerList` (4.1.1). -/
def SerList (l : List (MemberVal × Parameters)) : SRes := SerListLoop l

/-- The member loop of `SerDictionary` (4.1.2, step 2): key, then either
parameters alone (member value boolean true) or `=` plus inner list or
item; `", "` between entries (here the separator sits at the loop level,
unlike `SerList`). -/
def SerDictLoop : GoDict → SRes
  | [] => .ok []
  | (k, (mv, ps)) :: rest =>
    match SerKey k with
    | .err => .err
    | .panic => .panic
    | .ok ks =>
      let body : SRes :=
        match mv with
        | .bare (.vBool true) => SerParams ps
        | .inner il =>
          match SerInnerList il ps with
          | .ok s => .ok ('=' :: s)
          | .err => .err
          | .panic => .panic
        | _ =>
          match SerItem mv ps with
          | .ok s => .ok ('=' :: s)
          | .err => .err
          | .panic => .panic
      match body with
      | .err => .err
      | .panic => .panic
      | .ok bd =>
        let sep : List Char := if rest == [] then [] else [',', ' ']
        match SerDictLoop rest with
        | .ok t => .ok (ks ++ bd ++ sep ++ t)
        | .err => .err
        | .panic => .panic

/-- `SerDictionary` (4.1.2). -/
def SerDictionary (d : GoDict) : SRes := SerDictLoop d

/-- `TextSerialize` (4.1): omit empty top-level lists/dictionaries
(`absent`), otherwise dispatch on the run-time shape; any other shape
fails serialization. -/
def TextSerialize : SFValue → SerOut
  | .dict d =>
    if d == [] then .absent
    else
      match SerDictionary d with
      | .ok s => .bytes s
      | .err => .err
      | .panic => .panic
  | .list l =>
    if l == [] then .absent
    else
      match SerList l with
      | .ok s => .bytes s
      | .err => .err
      | .panic => .panic
  | .item mv ps =>
    match SerItem mv ps with
    | .ok s => .bytes s
    | .err => .err
    | .panic => .panic
  | .otherVal => .err

/-! ### Theorems settling the claims -/

/-- C1: The round-trip property fails on the code.  The item whose bare
item is the integer 1 and whose single parameter is (key a*, integer 2)
serializes successfully to the byte string 1;a*=2 — `SerKey` accepts `*`
in any position of a key — but `TextParse` of that string with the
matching tag item fails: `parseKey`'s continuation class (the source
regexp for key characters) omits `*`, so the key stops at `a`, the
remainder `*=2` is never consumed, and the trailing-input check fails the
parse.  So there is a data-model value whose successful serialization
does not parse back at all. -/
theorem roundtrip_broken_by_star_key :
    TextSerialize (.item (.bare (.vInt 1)) ([(("a*".toList), BareItem.vInt 2)]))
      = .bytes ("1;a*=2".toList)
    ∧ textParse ("1;a*=2".toList) ("item") = .err := by
  exact ⟨by decide, by decide⟩

/-- C2: Parsing is not total: the item input consisting only of `?`
panics inside `ParseBoolean` (it indexes the first character of the
now-empty input), a dictionary whose input ends right after a key panics
at the `=` lookahead in `ParseDictionary`, and a dictionary entry ending
right after `=` panics at the first-character dispatch of
`ParseItemOrList` — none of them produces the named parse error the
claim requires. -/
theorem parse_panics_on_truncated_inputs :
    textParse ("?".toList) ("item") = .panic
    ∧ textParse ("a".toList) ("dictionary") = .panic
    ∧ textParse ("a=".toList) ("dictionary") = .panic := by
  exact ⟨by decide, by decide, by decide⟩

/-- C3: List serialization does not join members with the `", "`
separator when a member is an inner list; it fails outright.  Both
members of the two-member list below serialize successfully on their own
(the empty inner list to the string consisting of the two parentheses,
the integer item to 1), yet `SerList` returns an error instead of the
joined output the claim describes: its inner-list branch is guarded by a
Go type assertion to a `[]any` slice that an `InnerList` value never
satisfies, so the inner list is handed to `SerItem`, which rejects it. -/
theorem serList_fails_on_inner_list_member :
    SerInnerList [] [] = .ok ("()".toList)
    ∧ SerItem (.bare (.vInt 1)) [] = .ok ("1".toList)
    ∧ SerList [((MemberVal.inner []), []), ((MemberVal.bare (.vInt 1)), [])] = .err
    ∧ TextSerialize (.list [((MemberVal.inner []), []), ((MemberVal.bare (.vInt 1)), [])])
        = .err := by
  exact ⟨by decide, by decide, by decide, by decide⟩

/-- C4: Serializing the decimal 1.123 does not yield the string 1.123.
The source appends the entire output of `strconv.FormatFloat` applied to
the fractional component — including that output's own leading `0.` —
after the decimal point it has already emitted, so the result is
1.0.123, which contains a second embedded `0.` segment instead of being
exactly the integer digits, one point, and the fractional digits. -/
theorem serDecimal_emits_extra_zero_dot :
    SerDecimal 1123 3 = .ok ("1.0.123".toList)
    ∧ SerDecimal 1123 3 ≠ .ok ("1.123".toList)
    ∧ TextSerialize (.item (.bare (.vDec 1123 3)) []) = .bytes ("1.0.123".toList) := by
  exact ⟨by decide, by decide, by decide⟩

/-- C5: The fractional-digit limit is enforced off by one.  The source
computes `len(input_number) - strings.Index(input_number, ".")`, which
counts the dot itself, so the three-fraction-digit literal 1.123 fails
to parse even though the claim (and the RFC step quoted in the code's
own comment) says it must succeed; 1.1234 fails as the claim says, and
the two-fraction-digit literal 1.12 parses. -/
theorem parseNumber_rejects_three_fraction_digits :
    parseNumber ("1.123".toList) = .err []
    ∧ parseNumber ("1.1234".toList) = .err []
    ∧ parseNumber ("1.12".toList) = .ok (.vDec 112 2) []
    ∧ textParse ("1.123".toList) ("item") = .err := by
  exact ⟨by decide, by decide, by decide, by decide⟩

/-- C6: On the dictionary text of the claim, the parse succeeds and the
resulting map contents are as described — exactly two entries, key a
holding the last-written integer 3, key b holding boolean true with
parameter (foo, 9).  These are statements about the unordered contents
of the Go map the code builds; the order half of the claim (key sequence
a then b) has no counterpart in the code, whose `map[string]...` result
type keeps no insertion order at all. -/
theorem parseDictionary_contents_last_write_wins :
    (dictOf (textParse ("a=1, b;foo=9, a=3".toList) ("dictionary"))).map List.length = some 2
    ∧ ((dictOf (textParse ("a=1, b;foo=9, a=3".toList) ("dictionary"))).bind
        (fun d => goMapLookup d ("a".toList))) = some (.bare (.vInt 3), [])
    ∧ ((dictOf (textParse ("a=1, b;foo=9, a=3".toList) ("dictionary"))).bind
        (fun d => goMapLookup d ("b".toList)))
        = some (.bare (.vBool true), [(("foo".toList), BareItem.vInt 9)]) := by
  exact ⟨by decide, by decide, by decide⟩

/-- C7: Parsing failure is not all-or-nothing.  The malformed number 1.
(a trailing decimal point) fails `parseNumber`, yet the top-level list
parse of the input consisting of that number wrapped in parentheses
succeeds: `ParseInnerList` discards the error of `ParseItem`
(`item, _ := ParseItem(...)`) and appends the zero value in its place,
so the returned list contains an inner list whose single item is the nil
bare item — a substituted partial value inside a successful result. -/
theorem innerList_error_swallowed :
    parseNumber ("1.)".toList) = .err (")".toList)
    ∧ textParse ("(1.)".toList) ("list")
        = .ok (.listV [((MemberVal.inner [(.vNil, [])]), [])]) := by
  exact ⟨by decide, by decide⟩

/-- C8: Integer boundary behaviour is exactly as claimed: the 15-digit
integer 999999999999999 parses as an item and serializes to its decimal
digits, while 1000000000000000 and -1000000000000000 fail serialization
(range check) and their textual forms fail parsing (a 16th digit pushes
the accumulator past the 15-character limit). -/
theorem integer_boundary :
    textParse ("999999999999999".toList) ("item")
      = .ok (.itemV (.vInt 999999999999999, []))
    ∧ TextSerialize (.item (.bare (.vInt 999999999999999)) [])
        = .bytes ("999999999999999".toList)
    ∧ textParse ("1000000000000000".toList) ("item") = .err
    ∧ textParse ("-1000000000000000".toList) ("item") = .err
    ∧ TextSerialize (.item (.bare (.vInt 1000000000000000)) []) = .err
    ∧ TextSerialize (.item (.bare (.vInt (-1000000000000000))) []) = .err := by
  exact ⟨by decide, by decide, by decide, by decide, by decide, by decide⟩

/-- C9: Bare-item dispatch does not cover the full ALPHA class.  The
token dispatch in `parseBareItem` uses the source regexp matching only
lowercase letters and `*`, so the uppercase input ABC is not dispatched
to token parsing: it falls through to the unrecognized-item-type failure
and the item parse errs, while the lowercase abc parses to a token as
the claim expects of all letters. -/
theorem uppercase_token_dispatch_fails :
    parseBareItem ("ABC".toList) = .err ("ABC".toList)
    ∧ textParse ("ABC".toList) ("item") = .err
    ∧ textParse ("abc".toList) ("item") = .ok (.itemV (.vStr ("abc".toList), [])) := by
  exact ⟨by decide, by decide, by decide⟩

/-- C10 counterexample: an error-result path does exist for an unknown
field-type tag.  With a non-ASCII input byte, `TextParse` returns a
parse error from its initial ASCII check before the tag is ever
examined, so it does not panic even though the tag foo is unknown. -/
theorem textParse_err_unknown_tag_nonascii :
    textParse ([Char.ofNat 255]) ("foo") = .err := by decide

/-- C10 (amended): for every input that passes the initial ASCII check,
`TextParse` with a field type other than list, dictionary, or item
panics instead of returning a parse-error value; only the ASCII
precheck, which runs before the tag is examined, can produce an error
result for an unknown tag. -/
theorem textParse_panics_unknown_tag_ascii (input : List Char) (ft : String)
    (ha : allAscii input = true) (h1 : ft ≠ "list") (h2 : ft ≠ "dictionary")
    (h3 : ft ≠ "item") :
    textParse input ft = .panic := by
  have e1 : (ft == "list") = false := by simpa using h1
  have e2 : (ft == "dictionary") = false := by simpa using h2
  have e3 : (ft == "item") = false := by simpa using h3
  simp [textParse, ha, e1, e2, e3]

/-- C10 witness: the amended theorem applied at the concrete input x and
the concrete unknown tag foo. -/
theorem textParse_panics_unknown_tag_ascii_witness :
    textParse ("x".toList) ("foo") = .panic :=
  textParse_panics_unknown_tag_ascii ("x".toList) ("foo") (by decide) (by decide)
    (by decide) (by decide)

end Rfc8941
